import Mathlib

/-!
Verification of the Eldrix support-routing webhook server (src/server.ts)
against its natural-language specification.

The embedding models the pure decision logic of the server: contact
normalization, the entitlement resolver, the session tracker, billing
reporting, and the voice/SMS webhook decision paths.  External effects
(Twilio speech markup, SMS sends, database queries) are modelled as data:
the relational store is an explicit `Db` value, every SQL statement is
translated into a pure function over it, outbound messages are recorded as
tagged notices, and the TwiML reply to the provider is the `response` field
of a handler result (`none` means the handler never answered the webhook).

Timestamps (`createdAt`, `now`, month bounds) are integers, standing for
milliseconds as in the JavaScript `Date` API.  The month window computed by
`countUserSessions` in the source (first day of current month to first day
of next month, formatted as ISO dates) is abstracted as the half-open
interval `[monthStart, monthEnd)` passed in as parameters.  Generated UUIDs
are passed in as fresh-identifier parameters; the uuid primary keys of
Message and StripeUsage rows, and the cosmetic session `title`, are omitted
from the records since no query in the source reads them.
-/

namespace Eldrix

/-- Digits-only form of a phone string: model of the JS
`phone.replace(/\D/g, "")` step. -/
def digitsOnly (l : List Char) : List Char :=
  l.filter Char.isDigit

/-- Model of the JS `.replace(/^1/, "")` step: drop one leading digit 1
if present. -/
def stripLeadingOne (l : List Char) : List Char :=
  match l with
  | [] => []
  | c :: rest => if c = '1' then rest else c :: rest

/-- Contact normalizer, model of `cleanPhoneNumber` (server.ts:102-104):
remove all non-digit characters, then strip a single leading 1. -/
def cleanPhoneNumber (phone : String) : String :=
  ⟨stripLeadingOne (digitsOnly phone.data)⟩

/-- Bool test that `pat` occurs at the head of `hay`. -/
def leadsWith : List Char → List Char → Bool
  | [], _ => true
  | _ :: _, [] => false
  | a :: pa, b :: hb => a == b && leadsWith pa hb

/-- Bool test that `pat` occurs as a contiguous substring of `hay`:
model of the SQL `hay LIKE '%pat%'` match used for phone lookups
(the patterns are digit strings, so LIKE wildcards cannot occur). -/
def likeContains (hay pat : List Char) : Bool :=
  match hay with
  | [] => pat.isEmpty
  | _ :: t => leadsWith pat hay || likeContains t pat

/-- SQL LIKE match on strings: `hay LIKE '%' || pat || '%'`. -/
def likeMatch (hay pat : String) : Bool :=
  likeContains hay.data pat.data

/-- Row of the `User` table (the fields the server reads). -/
structure UserRec where
  id : String
  name : String
  phone : String
  stripeSubscriptionId : Option String
  stripeUsageId : Option String
  stripeCustomerId : Option String
deriving DecidableEq, Repr

/-- Row of the `HelpSession` table (uuid omitted fields: title). -/
structure HelpSession where
  id : String
  userId : String
  type : String
  status : String
  priority : String
  completed : Bool
  createdAt : Int
  updatedAt : Int
  lastMessage : Option String
deriving DecidableEq, Repr

/-- Row of the `Message` table (uuid primary key omitted). -/
structure MessageRec where
  helpSessionId : String
  content : String
  isAdmin : Bool
  createdAt : Int
  read : Bool
deriving DecidableEq, Repr

/-- Row of the `StripeUsage` table (uuid primary key, quantity and price
columns omitted; no query in the source reads them). -/
structure StripeUsageRec where
  userId : String
  stripeUsageId : String
  stripeCustomerId : String
  sessionId : String
  usageType : String
  status : String
deriving DecidableEq, Repr

/-- The relational store.  Lists play the role of tables; for queries with
`LIMIT 1` and no ORDER BY the first matching element models the row the
store happens to return. -/
structure Db where
  users : List UserRec
  freeTrials : List String
  sessions : List HelpSession
  messages : List MessageRec
  stripeUsages : List StripeUsageRec
deriving DecidableEq, Repr

/-- Model of `findUserByPhone` (server.ts:116-155):
`SELECT * FROM "User" WHERE phone LIKE '%cleaned%'`, first row. -/
def findUserByPhone (db : Db) (phone : String) : Option UserRec :=
  db.users.find? fun u => likeMatch u.phone (cleanPhoneNumber phone)

/-- Point lookup `SELECT ... FROM "User" WHERE id = $1`, first row. -/
def findUserById (db : Db) (uid : String) : Option UserRec :=
  db.users.find? fun u => u.id == uid

/-- Model of the counting query in `countUserSessions` (server.ts:245-248):
completed sessions of the user created inside the month window. -/
def countUserSessions (sessions : List HelpSession) (uid : String)
    (monthStart monthEnd : Int) : Nat :=
  (sessions.filter fun s =>
    s.userId == uid && decide (monthStart ≤ s.createdAt) &&
      decide (s.createdAt < monthEnd) && s.completed).length

/-- Model of `countUserSessions` error handling (server.ts:262-266):
a database error is caught inside the function and the count degrades
to 0. -/
def countUserSessionsRun (queryRes : Except Unit Nat) : Nat :=
  match queryRes with
  | .ok n => n
  | .error _ => 0

/-- The three plan types of `getUserSubscriptionInfo`. -/
inductive SubscriptionType where
  | free
  | payAsYouGo
  | subscription
deriving DecidableEq, Repr

/-- Result record of `getUserSubscriptionInfo` (server.ts:158-163).
`sessionLimit = -1` and `freeSessionsRemaining = -1` mean unlimited. -/
structure SubscriptionInfo where
  subscriptionType : SubscriptionType
  sessionLimit : Int
  hasUnlimitedSessions : Bool
  freeSessionsRemaining : Int
deriving DecidableEq, Repr

/-- Model of `getUserSubscriptionInfo` (server.ts:158-225).  `userQuery` is
the outcome of the `SELECT ... FROM "User" WHERE id = $1` lookup (error,
no row, or a row); `countQuery` is the outcome of the session-count query,
whose error is swallowed inside `countUserSessionsRun`.  The outer catch of
the source maps a user-query error to the free-plan default. -/
def getUserSubscriptionInfoRun (userQuery : Except Unit (Option UserRec))
    (countQuery : Except Unit Nat) : SubscriptionInfo :=
  match userQuery with
  | .error _ => ⟨.free, 3, false, 3⟩
  | .ok none => ⟨.free, 3, false, 3⟩
  | .ok (some u) =>
    if u.stripeSubscriptionId.isSome then
      ⟨.subscription, -1, true, -1⟩
    else if u.stripeUsageId.isSome then
      ⟨.payAsYouGo, -1, true,
        max 0 (3 - (countUserSessionsRun countQuery : Int))⟩
    else
      ⟨.free, 3, false,
        max 0 (3 - (countUserSessionsRun countQuery : Int))⟩

/-- The entitlement resolver on an error-free store: the composition the
handlers invoke as `getUserSubscriptionInfo(user.id)`. -/
def resolveInfo (db : Db) (uid : String) (monthStart monthEnd : Int) :
    SubscriptionInfo :=
  getUserSubscriptionInfoRun (.ok (findUserById db uid))
    (.ok (countUserSessions db.sessions uid monthStart monthEnd))

/-- Model of `hasUsedFreeTrial` (server.ts:270-295):
`SELECT * FROM "FreeTrial" WHERE phone LIKE '%cleaned%'` is non-empty. -/
def hasUsedFreeTrial (db : Db) (phone : String) : Bool :=
  db.freeTrials.any fun p => likeMatch p (cleanPhoneNumber phone)

/-- Model of `recordFreeTrial` (server.ts:298-314):
`INSERT INTO "FreeTrial" (phone) VALUES (cleaned) ON CONFLICT (phone)
DO NOTHING`. -/
def recordFreeTrial (db : Db) (phone : String) : Db :=
  let cp := cleanPhoneNumber phone
  if db.freeTrials.any fun p => p == cp then db
  else { db with freeTrials := cp :: db.freeTrials }

/-- The active-status set both handlers filter on
(server.ts:986-994 and 1892-1898). -/
def activeStatus (s : HelpSession) : Bool :=
  s.status == "pending" || s.status == "active" ||
    s.status == "ongoing" || s.status == "open"

/-- Model of `SELECT * FROM "HelpSession" WHERE "userId" = $1 AND
completed = false ORDER BY "createdAt" DESC LIMIT 1`: the most recently
created incomplete session (on a createdAt tie the earlier table row is
kept; SQL leaves the tie order unspecified). -/
def latestIncompleteRow (sessions : List HelpSession) (uid : String) :
    Option HelpSession :=
  (sessions.filter fun s => s.userId == uid && !s.completed).foldl
    (fun acc s =>
      match acc with
      | none => some s
      | some t => if s.createdAt > t.createdAt then some s else some t)
    none

/-- The session tracker lookup used by both handlers: fetch the latest
incomplete row, then keep it only when its status is in the active set.
An older active session hidden behind a newer inactive incomplete row is
therefore not found. -/
def findActiveSession (sessions : List HelpSession) (uid : String) :
    Option HelpSession :=
  match latestIncompleteRow sessions uid with
  | some s => if activeStatus s then some s else none
  | none => none

/-- Model of the pay-as-you-go throttle query (server.ts:1021-1026 and
1930-1935): some session of the user was created within the last
24 hours, any completion state. -/
def hasRecentSession (sessions : List HelpSession) (uid : String)
    (now : Int) : Bool :=
  sessions.any fun s =>
    s.userId == uid && decide (s.createdAt > now - 24 * 60 * 60 * 1000)

/-- Result of `reportStripeUsage`: the store afterwards, the boolean the
function returns, and how many metered usage events were sent to the
billing provider (0 or 1). -/
structure ReportResult where
  db : Db
  ok : Bool
  meterEvents : Nat
deriving DecidableEq, Repr

/-- Model of `reportStripeUsage` (server.ts:317-433).  `stripeOk` is
whether the billing provider accepts the meter event.  The UsageRecord
insert is `ON CONFLICT ("stripeUsageId") DO NOTHING`, so a row is inserted
only when no row with the same stripeUsageId exists. -/
def reportStripeUsage (db : Db) (uid sid : String)
    (monthStart monthEnd : Int) (stripeOk : Bool) : ReportResult :=
  let info := resolveInfo db uid monthStart monthEnd
  if info.subscriptionType ≠ .payAsYouGo then ⟨db, true, 0⟩
  else if info.freeSessionsRemaining > 0 then ⟨db, true, 0⟩
  else
    match findUserById db uid with
    | none => ⟨db, false, 0⟩
    | some u =>
      match u.stripeUsageId with
      | none => ⟨db, true, 0⟩
      | some usageId =>
        match u.stripeCustomerId with
        | none => ⟨db, false, 0⟩
        | some custId =>
          if stripeOk then
            let db1 :=
              if db.stripeUsages.any fun r => r.stripeUsageId == usageId
              then db
              else { db with stripeUsages :=
                ⟨uid, usageId, custId, sid, "help_session", "pending"⟩ ::
                  db.stripeUsages }
            ⟨db1, true, 1⟩
          else ⟨db, false, 1⟩

/-- Result of `createHelpSession`: the store afterwards, the new session
id, and the billing outcome threaded out of `reportStripeUsage`. -/
structure CreateResult where
  db : Db
  sessionId : String
  reportOk : Bool
  meterEvents : Nat
deriving DecidableEq, Repr

/-- Priority derivation of `createHelpSession` (server.ts:459-485). -/
def priorityFor : SubscriptionType → String
  | .subscription => "high"
  | .payAsYouGo => "medium"
  | .free => "low"

/-- The HelpSession row inserted by `createHelpSession`: status ongoing,
not completed, priority derived from the plan type. -/
def newHelpSession (db : Db) (uid callType : String)
    (initialMessage : Option String) (now : Int) (sid : String)
    (monthStart monthEnd : Int) : HelpSession :=
  { id := sid, userId := uid, type := callType, status := "ongoing",
    priority :=
      priorityFor (resolveInfo db uid monthStart monthEnd).subscriptionType,
    completed := false, createdAt := now, updatedAt := now,
    lastMessage := initialMessage }

/-- First half of `createHelpSession` (server.ts:436-522): the store with
the new ongoing session row inserted.  `sid` stands for the generated
uuid. -/
def withNewSession (db : Db) (uid callType : String)
    (initialMessage : Option String) (now : Int) (sid : String)
    (monthStart monthEnd : Int) : Db :=
  let s :=
    newHelpSession db uid callType initialMessage now sid monthStart monthEnd
  { db with sessions := s :: db.sessions }

/-- Model of `createHelpSession` continued: the insert followed by the
usage report. -/
def createHelpSession (db : Db) (uid callType : String)
    (initialMessage : Option String) (now : Int) (sid : String)
    (monthStart monthEnd : Int) (stripeOk : Bool) : CreateResult :=
  let db1 :=
    withNewSession db uid callType initialMessage now sid monthStart monthEnd
  let rep := reportStripeUsage db1 uid sid monthStart monthEnd stripeOk
  ⟨rep.db, sid, rep.ok, rep.meterEvents⟩

/-- Model of `createMessage` (server.ts:525-565): insert a Message row and
update the lastMessage/updatedAt of the owning session. -/
def createMessage (db : Db) (sid content : String) (isAdmin : Bool)
    (now : Int) : Db :=
  { db with
    messages := ⟨sid, content, isAdmin, now, false⟩ :: db.messages,
    sessions := db.sessions.map fun s =>
      if s.id == sid then
        { s with lastMessage := some content, updatedAt := now }
      else s }

/-- Model of the in-place channel switch
`UPDATE "HelpSession" SET type = 'sms', "updatedAt" = $1 WHERE id = $2`
(server.ts:1917-1920). -/
def setSessionTypeSms (db : Db) (sid : String) (now : Int) : Db :=
  { db with sessions := db.sessions.map fun s =>
      if s.id == sid then { s with type := "sms", updatedAt := now }
      else s }

/-- Outbound messages the handlers send to the contact, tagged by
content. -/
inductive UserNotice where
  /-- SMS path: used all 3 monthly sessions (server.ts:1861-1865). -/
  | usedAllSessions
  /-- pay-as-you-go throttle: wait 24 hours
  (server.ts:1034-1038 and 1943-1947). -/
  | paygWait
  /-- confirmation naming the plan context, sent only on the first message
  of a new SMS session (server.ts:2040-2059). -/
  | newSessionConfirm (plan : SubscriptionType) (freeRemaining : Int)
  /-- unregistered sender already used the free trial: visit the website
  (server.ts:2071-2075). -/
  | trialUsedSignup
  /-- free-trial SMS acknowledgment (server.ts:2101-2105). -/
  | freeTrialThanks
deriving DecidableEq, Repr

/-- Outbound messages the handlers send to the admin, tagged by content. -/
inductive AdminNotice where
  /-- voice: denied due to session limit (server.ts:967-971). -/
  | voiceSessionLimit
  /-- voice: denied due to recent session, pay-as-you-go
  (server.ts:1041-1045). -/
  | voicePaygRecentDeny
  /-- SMS: not forwarded, monthly sessions used (server.ts:1868-1872). -/
  | smsSessionLimit
  /-- SMS: pay-as-you-go sender has a recent session, not forwarded
  (server.ts:1950-1954). -/
  | smsPaygRecentDeny
  /-- SMS forwarded to the representative; `isNew` marks the new-session
  plan-context prefix versus the ongoing-conversation prefix
  (server.ts:2006-2035). -/
  | smsForward (isNew : Bool)
  /-- SMS from an unregistered sender who already used the free trial, not
  forwarded (server.ts:2078-2082). -/
  | smsTrialUsedDeny
  /-- free-trial SMS forwarded with the FREE TRIAL label
  (server.ts:2094-2098). -/
  | smsFreeTrialForward
deriving DecidableEq, Repr

/-- Whisper label attached to a forwarded call (server.ts:1077-1084). -/
inductive WhisperType where
  | customer
  | freetrial
  | returning
deriving DecidableEq, Repr

/-- The TwiML document a voice-handler path sends back to the provider. -/
inductive VoiceTwiml where
  /-- initial call: IVR menu gather (server.ts:1278-1301). -/
  | menuGather
  /-- invalid digit: re-prompt gather (server.ts:1247-1274). -/
  | invalidGather
  /-- digit 1, free user out of sessions: account info, used-all-3 speech,
  hangup, no gather (server.ts:778-792). -/
  | accountLimitHangup
  /-- digit 1, sessions remaining: account info and a gather offering
  digit 2 (server.ts:799-855). -/
  | accountGather
  /-- digit 1, no account found: gather offering digit 2
  (server.ts:863-886). -/
  | accountNotFoundGather
  /-- digit 2, free user out of sessions: used-all-3 speech and hangup
  (server.ts:954-964). -/
  | limitHangup
  /-- digit 2: dial the forward number with a whisper label and the
  active-session flag (server.ts:1108-1149). -/
  | dialForward (w : WhisperType) (activeSession : Bool)
deriving DecidableEq, Repr

/-- Outcome of one voice-webhook event: the store afterwards, SMS sent to
the caller, SMS sent to the admin, and the TwiML reply (`none` when the
handler path returns without answering the webhook). -/
structure VoiceResult where
  db : Db
  userSms : List UserNotice
  adminSms : List AdminNotice
  response : Option VoiceTwiml
deriving DecidableEq, Repr

/-- Outcome of one SMS-webhook event; the reply to the provider is always
an empty MessagingResponse, recorded as `some ()` when sent. -/
structure SmsResult where
  db : Db
  userSms : List UserNotice
  adminSms : List AdminNotice
  response : Option Unit
deriving DecidableEq, Repr

/-- Model of the digit-1 (account lookup) path of `POST /twilio/voice`
(server.ts:736-904).  Reads only; never notifies the admin. -/
def handleVoiceDigit1 (db : Db) (caller : String)
    (monthStart monthEnd : Int) : VoiceResult :=
  match findUserByPhone db caller with
  | some user =>
    let info := resolveInfo db user.id monthStart monthEnd
    if info.subscriptionType = .free ∧ info.freeSessionsRemaining ≤ 0 then
      ⟨db, [], [], some .accountLimitHangup⟩
    else
      ⟨db, [], [], some .accountGather⟩
  | none => ⟨db, [], [], some .accountNotFoundGather⟩

/-- Model of the digit-2 (talk to a representative) path of
`POST /twilio/voice` (server.ts:905-1245).  `sid` stands for the uuid a
new session would get; `stripeOk` is the billing-provider outcome.
The pay-as-you-go throttle branch reproduces the source faithfully: it
returns after the two SMS sends without sending any TwiML (`response :=
none`), matching the early `return` at server.ts:1048 that is not preceded
by a `res.send`. -/
def handleVoiceDigit2 (db : Db) (caller : String)
    (now monthStart monthEnd : Int) (sid : String) (stripeOk : Bool) :
    VoiceResult :=
  match findUserByPhone db caller with
  | some user =>
    let info := resolveInfo db user.id monthStart monthEnd
    if info.subscriptionType = .free ∧ info.freeSessionsRemaining ≤ 0 then
      ⟨db, [], [.voiceSessionLimit], some .limitHangup⟩
    else
      match findActiveSession db.sessions user.id with
      | some _ =>
        ⟨db, [], [], some (.dialForward .customer true)⟩
      | none =>
        if info.subscriptionType = .payAsYouGo ∧
            hasRecentSession db.sessions user.id now then
          ⟨db, [.paygWait], [.voicePaygRecentDeny], none⟩
        else
          let cr := createHelpSession db user.id "phone" none now sid
            monthStart monthEnd stripeOk
          ⟨cr.db, [], [], some (.dialForward .customer false)⟩
  | none =>
    if hasUsedFreeTrial db caller then
      ⟨db, [], [], some (.dialForward .returning false)⟩
    else
      ⟨recordFreeTrial db caller, [], [],
        some (.dialForward .freetrial false)⟩

/-- Model of `POST /twilio/voice` (server.ts:712-1305): dispatch on the
gathered digits. -/
def handleVoice (db : Db) (digits : Option String) (caller : String)
    (now monthStart monthEnd : Int) (sid : String) (stripeOk : Bool) :
    VoiceResult :=
  match digits with
  | none => ⟨db, [], [], some .menuGather⟩
  | some d =>
    if d = "1" then handleVoiceDigit1 db caller monthStart monthEnd
    else if d = "2" then
      handleVoiceDigit2 db caller now monthStart monthEnd sid stripeOk
    else ⟨db, [], [], some .invalidGather⟩

/-- Model of `POST /twilio/sms` (server.ts:1801-2120).  `body` is the
combined message content (text plus media labels); `sid` stands for the
uuid a new session would get. -/
def handleSms (db : Db) (sender body : String)
    (now monthStart monthEnd : Int) (sid : String) (stripeOk : Bool) :
    SmsResult :=
  match findUserByPhone db sender with
  | some user =>
    let info := resolveInfo db user.id monthStart monthEnd
    if info.subscriptionType = .free ∧ info.freeSessionsRemaining ≤ 0 then
      ⟨db, [.usedAllSessions], [.smsSessionLimit], some ()⟩
    else
      match findActiveSession db.sessions user.id with
      | some s =>
        let db1 :=
          if s.type ≠ "sms" then setSessionTypeSms db s.id now else db
        let db2 := createMessage db1 s.id body false now
        ⟨db2, [], [.smsForward false], some ()⟩
      | none =>
        if info.subscriptionType = .payAsYouGo ∧
            hasRecentSession db.sessions user.id now then
          ⟨db, [.paygWait], [.smsPaygRecentDeny], some ()⟩
        else
          let cr := createHelpSession db user.id "sms" (some body) now sid
            monthStart monthEnd stripeOk
          let db2 := createMessage cr.db cr.sessionId body false now
          ⟨db2,
            [.newSessionConfirm info.subscriptionType
              info.freeSessionsRemaining],
            [.smsForward true], some ()⟩
  | none =>
    if hasUsedFreeTrial db sender then
      ⟨db, [.trialUsedSignup], [.smsTrialUsedDeny], some ()⟩
    else
      ⟨recordFreeTrial db sender, [.freeTrialThanks],
        [.smsFreeTrialForward], some ()⟩

/-! Helper lemmas shared by several claims. -/

/-- A user row with a subscription id resolves to the unlimited
subscription entitlement. -/
theorem resolveInfo_of_subscription {db : Db} {uid : String} {u : UserRec}
    (monthStart monthEnd : Int) (h : findUserById db uid = some u)
    (hs : u.stripeSubscriptionId.isSome) :
    resolveInfo db uid monthStart monthEnd = ⟨.subscription, -1, true, -1⟩ := by
  simp [resolveInfo, getUserSubscriptionInfoRun, h, hs]

/-- A user row with a usage id and no subscription id resolves to the
pay-as-you-go entitlement with the free-session countdown. -/
theorem resolveInfo_of_payg {db : Db} {uid : String} {u : UserRec}
    (monthStart monthEnd : Int) (h : findUserById db uid = some u)
    (hsub : u.stripeSubscriptionId = none) (hus : u.stripeUsageId.isSome) :
    resolveInfo db uid monthStart monthEnd =
      ⟨.payAsYouGo, -1, true,
        max 0 (3 - (countUserSessions db.sessions uid monthStart monthEnd :
          Int))⟩ := by
  simp [resolveInfo, getUserSubscriptionInfoRun, countUserSessionsRun, h,
    hsub, hus]

/-- A user row with neither billing id resolves to the free plan with the
free-session countdown. -/
theorem resolveInfo_of_free {db : Db} {uid : String} {u : UserRec}
    (monthStart monthEnd : Int) (h : findUserById db uid = some u)
    (hsub : u.stripeSubscriptionId = none) (hus : u.stripeUsageId = none) :
    resolveInfo db uid monthStart monthEnd =
      ⟨.free, 3, false,
        max 0 (3 - (countUserSessions db.sessions uid monthStart monthEnd :
          Int))⟩ := by
  simp [resolveInfo, getUserSubscriptionInfoRun, countUserSessionsRun, h,
    hsub, hus]

/-- `reportStripeUsage` only ever touches the StripeUsage table. -/
theorem reportStripeUsage_sessions (db : Db) (uid sid : String)
    (monthStart monthEnd : Int) (ok : Bool) :
    (reportStripeUsage db uid sid monthStart monthEnd ok).db.sessions =
      db.sessions := by
  unfold reportStripeUsage
  repeat' first | rfl | dsimp only | split

/-- `reportStripeUsage` leaves the Message table unchanged. -/
theorem reportStripeUsage_messages (db : Db) (uid sid : String)
    (monthStart monthEnd : Int) (ok : Bool) :
    (reportStripeUsage db uid sid monthStart monthEnd ok).db.messages =
      db.messages := by
  unfold reportStripeUsage
  repeat' first | rfl | dsimp only | split

/-- The session inserted by `createHelpSession`, in front of the previous
table contents. -/
theorem createHelpSession_sessions (db : Db) (uid ct : String)
    (im : Option String) (now : Int) (sid : String)
    (monthStart monthEnd : Int) (ok : Bool) :
    (createHelpSession db uid ct im now sid monthStart monthEnd
      ok).db.sessions =
      newHelpSession db uid ct im now sid monthStart monthEnd ::
        db.sessions := by
  unfold createHelpSession
  exact reportStripeUsage_sessions _ _ _ _ _ _

/-- `createMessage` does not change the number of sessions. -/
theorem createMessage_sessions_length (db : Db) (sid content : String)
    (isAdmin : Bool) (now : Int) :
    (createMessage db sid content isAdmin now).sessions.length =
      db.sessions.length := by
  simp [createMessage]

/-- The 24-hour throttle guard, spelled as the existence of a session of
the user created within the last 24 hours (any completion state). -/
theorem hasRecentSession_iff (sessions : List HelpSession) (uid : String)
    (now : Int) :
    hasRecentSession sessions uid now = true ↔
      ∃ s ∈ sessions, s.userId = uid ∧
        s.createdAt > now - 24 * 60 * 60 * 1000 := by
  simp [hasRecentSession, List.any_eq_true, Bool.and_eq_true]

/-- Counting completed sessions ignores a freshly inserted incomplete
session. -/
theorem countUserSessions_cons_incomplete {s : HelpSession}
    (sessions : List HelpSession) (uid : String) (monthStart monthEnd : Int)
    (hc : s.completed = false) :
    countUserSessions (s :: sessions) uid monthStart monthEnd =
      countUserSessions sessions uid monthStart monthEnd := by
  simp [countUserSessions, List.filter_cons, hc]

/-- Inserting an incomplete session does not change the entitlement
resolution. -/
theorem resolveInfo_session_cons {s : HelpSession} (db : Db) (uid : String)
    (monthStart monthEnd : Int) (hc : s.completed = false) :
    resolveInfo { db with sessions := s :: db.sessions } uid monthStart
      monthEnd = resolveInfo db uid monthStart monthEnd := by
  simp [resolveInfo, findUserById,
    countUserSessions_cons_incomplete _ _ _ _ hc]

/-- The session insert leaves the StripeUsage table unchanged. -/
theorem withNewSession_stripeUsages (db : Db) (uid ct : String)
    (im : Option String) (now : Int) (sid : String)
    (monthStart monthEnd : Int) :
    (withNewSession db uid ct im now sid monthStart monthEnd).stripeUsages =
      db.stripeUsages := rfl

/-- The session insert leaves the User table unchanged. -/
theorem findUserById_withNewSession (db : Db) (uid ct : String)
    (im : Option String) (now : Int) (sid : String)
    (monthStart monthEnd : Int) (v : String) :
    findUserById (withNewSession db uid ct im now sid monthStart monthEnd)
      v = findUserById db v := rfl

/-! Claim C1: entitlement derivation. -/

/-- C1: for every registered user, the entitlement resolver derives the
plan from the billing ids (subscriptionId present: subscription with
unlimited sessions; otherwise usageId present: pay-as-you-go; otherwise
free), and for free and pay-as-you-go plans freeSessionsRemaining equals
max(0, 3 minus the number of that user's completed HelpSessions created
within the month window). -/
theorem c1_entitlement_resolution (db : Db) (uid : String) (u : UserRec)
    (monthStart monthEnd : Int) (h : findUserById db uid = some u) :
    (u.stripeSubscriptionId.isSome →
      resolveInfo db uid monthStart monthEnd =
        ⟨.subscription, -1, true, -1⟩) ∧
    (u.stripeSubscriptionId = none → u.stripeUsageId.isSome →
      resolveInfo db uid monthStart monthEnd =
        ⟨.payAsYouGo, -1, true,
          max 0 (3 -
            (countUserSessions db.sessions uid monthStart monthEnd : Int))⟩) ∧
    (u.stripeSubscriptionId = none → u.stripeUsageId = none →
      resolveInfo db uid monthStart monthEnd =
        ⟨.free, 3, false,
          max 0 (3 -
            (countUserSessions db.sessions uid monthStart monthEnd : Int))⟩) :=
  ⟨fun hs => resolveInfo_of_subscription monthStart monthEnd h hs,
   fun hsub hus => resolveInfo_of_payg monthStart monthEnd h hsub hus,
   fun hsub hus => resolveInfo_of_free monthStart monthEnd h hsub hus⟩

/-- Subscription-plan user of the C1 witness store. -/
def uC1s : UserRec := ⟨"s1", "S", "3035550101", some "sub_1", none, some "cus_1"⟩

/-- Pay-as-you-go user of the C1 witness store. -/
def uC1p : UserRec := ⟨"p1", "P", "3035550102", none, some "usage_1", some "cus_2"⟩

/-- Free-plan user of the C1 witness store. -/
def uC1f : UserRec := ⟨"f1", "F", "3035550103", none, none, none⟩

/-- Store with one user of each plan shape, and two completed sessions of
the pay-as-you-go user inside the month window [0, 1000). -/
def dbC1 : Db :=
  ⟨[uC1s, uC1p, uC1f],
   [],
   [⟨"a", "p1", "phone", "completed", "medium", true, 10, 10, none⟩,
    ⟨"b", "p1", "sms", "completed", "medium", true, 20, 20, none⟩],
   [], []⟩

/-- C1 witness: the resolver evaluated on `dbC1` for each plan shape. -/
theorem c1_entitlement_resolution_witness :
    resolveInfo dbC1 "s1" 0 1000 = ⟨.subscription, -1, true, -1⟩ ∧
    resolveInfo dbC1 "p1" 0 1000 =
      ⟨.payAsYouGo, -1, true,
        max 0 (3 - (countUserSessions dbC1.sessions "p1" 0 1000 : Int))⟩ ∧
    resolveInfo dbC1 "f1" 0 1000 =
      ⟨.free, 3, false,
        max 0 (3 - (countUserSessions dbC1.sessions "f1" 0 1000 : Int))⟩ :=
  ⟨(c1_entitlement_resolution dbC1 "s1" uC1s 0 1000 (by decide)).1
     (by decide),
   (c1_entitlement_resolution dbC1 "p1" uC1p 0 1000 (by decide)).2.1
     (by decide) (by decide),
   (c1_entitlement_resolution dbC1 "f1" uC1f 0 1000 (by decide)).2.2
     (by decide) (by decide)⟩

/-! Claim C7: error handling of the entitlement resolver. -/

/-- Pay-as-you-go user row used for the C7 counterexample. -/
def uC7 : UserRec := ⟨"u2", "B", "7201112222", none, some "usage_1", some "cus_9"⟩

/-- C7 counterexample: when the session-count lookup raises an error (the
source swallows it inside countUserSessions and uses count 0), a
pay-as-you-go user still resolves to an unlimited pay-as-you-go
entitlement, not to the free plan with 3 sessions and no unlimited
access that the claim requires for every lookup error. -/
theorem c7_counterexample :
    getUserSubscriptionInfoRun (.ok (some uC7)) (.error ()) =
      ⟨.payAsYouGo, -1, true, 3⟩ ∧
    getUserSubscriptionInfoRun (.ok (some uC7)) (.error ()) ≠
      ⟨.free, 3, false, 3⟩ ∧
    (getUserSubscriptionInfoRun (.ok (some uC7))
      (.error ())).hasUnlimitedSessions = true := by decide

/-- C7 amended: an error in the user-row lookup makes the resolver return
the free plan with 3 sessions remaining and no unlimited flag; an error in
the session-count lookup is swallowed and treated as count 0; and an
unlimited entitlement is only ever returned for a user row that actually
carries a subscription id or a usage id, never created by an error. -/
theorem c7_amended_error_defaults :
    (∀ (e : Unit) (cq : Except Unit Nat),
      getUserSubscriptionInfoRun (.error e) cq = ⟨.free, 3, false, 3⟩) ∧
    (∀ uq : Except Unit (Option UserRec),
      getUserSubscriptionInfoRun uq (.error ()) =
        getUserSubscriptionInfoRun uq (.ok 0)) ∧
    (∀ (uq : Except Unit (Option UserRec)) (cq : Except Unit Nat),
      (getUserSubscriptionInfoRun uq cq).hasUnlimitedSessions = true →
      ∃ u, uq = .ok (some u) ∧
        (u.stripeSubscriptionId.isSome ∨ u.stripeUsageId.isSome)) := by
  refine ⟨fun e cq => rfl, fun uq => ?_, fun uq cq h => ?_⟩
  · match uq with
    | .error _ => rfl
    | .ok none => rfl
    | .ok (some u) =>
      simp only [getUserSubscriptionInfoRun, countUserSessionsRun]
  · match uq with
    | .error _ => simp [getUserSubscriptionInfoRun] at h
    | .ok none => simp [getUserSubscriptionInfoRun] at h
    | .ok (some u) =>
      refine ⟨u, rfl, ?_⟩
      by_cases hs : u.stripeSubscriptionId.isSome
      · exact Or.inl hs
      · by_cases hu : u.stripeUsageId.isSome
        · exact Or.inr hu
        · simp [getUserSubscriptionInfoRun, hs, hu] at h

/-- C7 witness: the amended theorem applied to `uC7` with an errored count
lookup. -/
theorem c7_amended_error_defaults_witness :
    getUserSubscriptionInfoRun (.error ()) (.ok 5) = ⟨.free, 3, false, 3⟩ ∧
    ∃ u, (Except.ok (some uC7) : Except Unit (Option UserRec)) =
        .ok (some u) ∧
      (u.stripeSubscriptionId.isSome ∨ u.stripeUsageId.isSome) :=
  ⟨c7_amended_error_defaults.1 () (.ok 5),
   c7_amended_error_defaults.2.2 (.ok (some uC7)) (.error ()) (by decide)⟩

/-! Claim C8: idempotence of the contact normalizer. -/

/-- C8 counterexample: the normalizer is not idempotent; on "11" the first
application strips one leading 1 giving "1" and the second application
strips again giving "". -/
theorem c8_counterexample :
    cleanPhoneNumber "11" = "1" ∧
    cleanPhoneNumber (cleanPhoneNumber "11") = "" ∧
    cleanPhoneNumber (cleanPhoneNumber "11") ≠ cleanPhoneNumber "11" := by
  decide

/-- Members of the stripped list come from the original list. -/
theorem mem_of_mem_stripLeadingOne {c : Char} {l : List Char}
    (h : c ∈ stripLeadingOne l) : c ∈ l := by
  match l with
  | [] => exact h
  | a :: t =>
    by_cases ha : a = '1'
    · simp only [stripLeadingOne, if_pos ha] at h
      exact List.mem_cons_of_mem a h
    · simpa only [stripLeadingOne, if_neg ha] using h

/-- Stripping is the identity on a list not headed by the digit 1. -/
theorem stripLeadingOne_of_head_ne {l : List Char}
    (h : l.head? ≠ some '1') : stripLeadingOne l = l := by
  match l with
  | [] => rfl
  | a :: t =>
    have ha : a ≠ '1' := fun hc => h (by simp [hc])
    simp [stripLeadingOne, ha]

/-- C8 amended: the normalizer is idempotent exactly on inputs whose
normalized form does not begin with the digit 1; in general a second
application strips one further leading 1 (see the counterexample "11"). -/
theorem c8_amended_idempotence (x : String)
    (h : (cleanPhoneNumber x).data.head? ≠ some '1') :
    cleanPhoneNumber (cleanPhoneNumber x) = cleanPhoneNumber x := by
  unfold cleanPhoneNumber at *
  have hdata : (String.mk (stripLeadingOne (digitsOnly x.data))).data =
      stripLeadingOne (digitsOnly x.data) := rfl
  rw [hdata] at h
  have hall : ∀ c ∈ stripLeadingOne (digitsOnly x.data), c.isDigit := by
    intro c hc
    have := mem_of_mem_stripLeadingOne hc
    exact (List.mem_filter.mp this).2
  have hfix : digitsOnly (stripLeadingOne (digitsOnly x.data)) =
      stripLeadingOne (digitsOnly x.data) :=
    List.filter_eq_self.mpr hall
  have : stripLeadingOne (digitsOnly
      (String.mk (stripLeadingOne (digitsOnly x.data))).data) =
      stripLeadingOne (digitsOnly x.data) := by
    rw [hdata, hfix, stripLeadingOne_of_head_ne h]
  exact congrArg String.mk this

/-- C8 witness: the amended idempotence applied to a realistically
formatted number. -/
theorem c8_amended_idempotence_witness :
    cleanPhoneNumber (cleanPhoneNumber "+1 (555) 123-4567") =
      cleanPhoneNumber "+1 (555) 123-4567" :=
  c8_amended_idempotence "+1 (555) 123-4567" (by decide)

/-! Claim C10: LIKE substring matching of phone lookups. -/

/-- User row whose stored phone contains the digits of a different number
as a substring. -/
def yUserC10 : UserRec := ⟨"u9", "Y", "5551234567", none, none, none⟩

/-- Store for C10: one user and one FreeTrial row with phone
"5551234567". -/
def dbC10 : Db := ⟨[yUserC10], ["5551234567"], [], [], []⟩

/-- C10: the phone lookups match by LIKE substring, not equality: the
distinct number "2345" normalizes to "2345", which occurs inside the
stored phone "5551234567", so findUserByPhone returns that other user's
row and hasUsedFreeTrial reports the other number's trial record. -/
theorem c10_substring_matching :
    findUserByPhone dbC10 "2345" = some yUserC10 ∧
    hasUsedFreeTrial dbC10 "2345" = true ∧
    cleanPhoneNumber "2345" ≠ yUserC10.phone ∧
    ("2345" : String) ≠ yUserC10.phone := by decide

/-! Claim C2: denial of quota-exhausted free-plan users. -/

/-- Free-plan user of the C2 stores. -/
def uC2 : UserRec := ⟨"u1", "A", "5551234567", none, none, none⟩

/-- Store for C2: the free-plan user has 3 completed sessions inside the
month window [0, 1000) and no open session. -/
def dbC2 : Db :=
  ⟨[uC2], [],
   [⟨"a", "u1", "phone", "completed", "low", true, 10, 10, none⟩,
    ⟨"b", "u1", "phone", "completed", "low", true, 20, 20, none⟩,
    ⟨"c", "u1", "sms", "completed", "low", true, 30, 30, none⟩],
   [], []⟩

/-- C2 counterexample: a voice digit-1 press (account lookup) is an
inbound voice digit press from a registered free-plan user with 3
sessions used, yet the handler sends no admin notification at all (it
only speaks the account summary and hangs up), refuting the claim that
every inbound event notifies the admin with a session-limit reason. -/
theorem c2_counterexample :
    countUserSessions dbC2.sessions "u1" 0 1000 = 3 ∧
    (handleVoice dbC2 (some "1") "+15551234567" 500 0 1000 "n1"
      true).adminSms = [] ∧
    (handleVoice dbC2 (some "1") "+15551234567" 500 0 1000 "n1"
      true).response = some .accountLimitHangup := by decide

/-- C2 amended: for every registered free-plan user with at least 3
completed sessions this month, each session-requesting inbound event
(voice digit-2 press or SMS) is denied: the store is unchanged (no new
HelpSession row), the user receives the used-all-sessions message, and
the admin is notified with the session-limit reason; a voice digit-1
press from such a user is told the sessions are used up and the call
ends, with no admin notification. -/
theorem c2_amended_quota_denial (db : Db) (caller body : String)
    (u : UserRec) (now monthStart monthEnd : Int) (sid : String) (ok : Bool)
    (h1 : findUserByPhone db caller = some u)
    (h2 : findUserById db u.id = some u)
    (hsub : u.stripeSubscriptionId = none)
    (hus : u.stripeUsageId = none)
    (hc : 3 ≤ countUserSessions db.sessions u.id monthStart monthEnd) :
    (handleVoiceDigit2 db caller now monthStart monthEnd sid ok).db = db ∧
    (handleVoiceDigit2 db caller now monthStart monthEnd sid ok).adminSms =
      [.voiceSessionLimit] ∧
    (handleVoiceDigit2 db caller now monthStart monthEnd sid ok).response =
      some .limitHangup ∧
    (handleSms db caller body now monthStart monthEnd sid ok).db = db ∧
    (handleSms db caller body now monthStart monthEnd sid ok).userSms =
      [.usedAllSessions] ∧
    (handleSms db caller body now monthStart monthEnd sid ok).adminSms =
      [.smsSessionLimit] ∧
    (handleSms db caller body now monthStart monthEnd sid ok).response =
      some () ∧
    (handleVoiceDigit1 db caller monthStart monthEnd).db = db ∧
    (handleVoiceDigit1 db caller monthStart monthEnd).adminSms = [] ∧
    (handleVoiceDigit1 db caller monthStart monthEnd).response =
      some .accountLimitHangup := by
  have hfree := resolveInfo_of_free monthStart monthEnd h2 hsub hus
  have hle : (max 0 (3 -
      (countUserSessions db.sessions u.id monthStart monthEnd : Int))) ≤ 0 := by
    omega
  simp [handleVoiceDigit2, handleVoiceDigit1, handleSms, h1, hfree, hle]

/-- C2 witness: the amended denial evaluated on `dbC2`. -/
theorem c2_amended_quota_denial_witness :
    (handleVoiceDigit2 dbC2 "+15551234567" 500 0 1000 "n1" true).db = dbC2 ∧
    (handleVoiceDigit2 dbC2 "+15551234567" 500 0 1000 "n1" true).adminSms =
      [.voiceSessionLimit] ∧
    (handleSms dbC2 "+15551234567" "help" 500 0 1000 "n1" true).db = dbC2 ∧
    (handleSms dbC2 "+15551234567" "help" 500 0 1000 "n1" true).adminSms =
      [.smsSessionLimit] := by
  have h := c2_amended_quota_denial dbC2 "+15551234567" "help" uC2 500 0 1000
    "n1" true (by decide) (by decide) (by decide) (by decide) (by decide)
  exact ⟨h.1, h.2.1, h.2.2.2.1, h.2.2.2.2.2.1⟩

/-! Claim C3: pay-as-you-go 24-hour throttle. -/

/-- C3: for a registered pay-as-you-go user with no active session, a new
session is rejected exactly when some HelpSession of the user (any
completion state) was created within the previous 24 hours; on denial the
caller is sent the wait message, the admin is notified, and no HelpSession
or Message row is inserted; otherwise a session is created. -/
theorem c3_payg_throttle (db : Db) (caller body : String) (u : UserRec)
    (now monthStart monthEnd : Int) (sid : String) (ok : Bool)
    (h1 : findUserByPhone db caller = some u)
    (h2 : findUserById db u.id = some u)
    (hsub : u.stripeSubscriptionId = none)
    (hus : u.stripeUsageId.isSome)
    (hact : findActiveSession db.sessions u.id = none) :
    (hasRecentSession db.sessions u.id now = true ↔
      ∃ s ∈ db.sessions, s.userId = u.id ∧
        s.createdAt > now - 24 * 60 * 60 * 1000) ∧
    (hasRecentSession db.sessions u.id now = true →
      (handleVoiceDigit2 db caller now monthStart monthEnd sid ok).db = db ∧
      (handleVoiceDigit2 db caller now monthStart monthEnd sid ok).userSms =
        [.paygWait] ∧
      (handleVoiceDigit2 db caller now monthStart monthEnd sid ok).adminSms =
        [.voicePaygRecentDeny] ∧
      (handleSms db caller body now monthStart monthEnd sid ok).db = db ∧
      (handleSms db caller body now monthStart monthEnd sid ok).userSms =
        [.paygWait] ∧
      (handleSms db caller body now monthStart monthEnd sid ok).adminSms =
        [.smsPaygRecentDeny] ∧
      (handleSms db caller body now monthStart monthEnd sid ok).response =
        some ()) ∧
    (hasRecentSession db.sessions u.id now = false →
      (handleVoiceDigit2 db caller now monthStart monthEnd sid
        ok).db.sessions.length = db.sessions.length + 1 ∧
      (handleSms db caller body now monthStart monthEnd sid
        ok).db.sessions.length = db.sessions.length + 1) := by
  have hpayg := resolveInfo_of_payg monthStart monthEnd h2 hsub hus
  refine ⟨hasRecentSession_iff _ _ _, fun hrec => ?_, fun hrec => ?_⟩
  · simp [handleVoiceDigit2, handleSms, h1, hpayg, hact, hrec]
  · simp [handleVoiceDigit2, handleSms, h1, hpayg, hact, hrec,
      createHelpSession_sessions, createMessage_sessions_length]

/-- Pay-as-you-go user of the C3 witness stores. -/
def uC3 : UserRec := ⟨"u2", "B", "7201112222", none, some "usage_1", some "cus_9"⟩

/-- Store with a completed session created 23 hours before the witness
time 90000000000. -/
def db23C3 : Db :=
  ⟨[uC3], [],
   [⟨"s9", "u2", "phone", "completed", "medium", true, 89917200000,
     89917200000, none⟩], [], []⟩

/-- Store with a completed session created 25 hours before the witness
time 90000000000. -/
def db25C3 : Db :=
  ⟨[uC3], [],
   [⟨"s9", "u2", "phone", "completed", "medium", true, 89910000000,
     89910000000, none⟩], [], []⟩

/-- C3 witness: a session created 23 hours ago causes denial on both
channels (store unchanged) and one created 25 hours ago does not (a
session row is inserted). -/
theorem c3_payg_throttle_witness :
    (handleVoiceDigit2 db23C3 "7201112222" 90000000000 0 1000 "n1"
      true).db = db23C3 ∧
    (handleSms db23C3 "7201112222" "hi" 90000000000 0 1000 "n1"
      true).db = db23C3 ∧
    (handleVoiceDigit2 db25C3 "7201112222" 90000000000 0 1000 "n1"
      true).db.sessions.length = db25C3.sessions.length + 1 ∧
    (handleSms db25C3 "7201112222" "hi" 90000000000 0 1000 "n1"
      true).db.sessions.length = db25C3.sessions.length + 1 := by
  have h23 := c3_payg_throttle db23C3 "7201112222" "hi" uC3 90000000000 0
    1000 "n1" true (by decide) (by decide) (by decide) (by decide)
    (by decide)
  have h25 := c3_payg_throttle db25C3 "7201112222" "hi" uC3 90000000000 0
    1000 "n1" true (by decide) (by decide) (by decide) (by decide)
    (by decide)
  exact ⟨(h23.2.1 (by decide)).1, (h23.2.1 (by decide)).2.2.2.1,
    (h25.2.2 (by decide)).1, (h25.2.2 (by decide)).2⟩

/-! Claim C4: free-trial reuse denial for unregistered contacts. -/

/-- Store for C4: no users, one FreeTrial row for the normalized number
5551234567. -/
def dbC4 : Db := ⟨[], ["5551234567"], [], [], []⟩

/-- C4 counterexample: a voice call from an unregistered contact whose
FreeTrial record exists, pressing digit 2, is not denied: the handler
forwards the call to the representative with the returning whisper label
and sends no admin denial notification, refuting the claim that every
inbound event from such a contact is denied and not forwarded. -/
theorem c4_counterexample :
    findUserByPhone dbC4 "+15551234567" = none ∧
    hasUsedFreeTrial dbC4 "+15551234567" = true ∧
    (handleVoiceDigit2 dbC4 "+15551234567" 0 0 1000 "n1" true).response =
      some (.dialForward .returning false) ∧
    (handleVoiceDigit2 dbC4 "+15551234567" 0 0 1000 "n1" true).adminSms =
      [] ∧
    (handleVoiceDigit2 dbC4 "+15551234567" 0 0 1000 "n1" true).db = dbC4 := by
  decide

/-- C4 amended: an inbound SMS from an unregistered contact with an
existing FreeTrial record is denied: the sender is instructed to sign up,
the admin is notified of the denial, the message is not forwarded, and no
row is created (in particular the single FreeTrial row remains the only
one).  A voice call from such a contact pressing digit 2 is not denied:
it is forwarded to the representative with the returning whisper label,
with no admin denial notification and likewise no new FreeTrial row. -/
theorem c4_amended_trial_denial (db : Db) (p body : String)
    (now monthStart monthEnd : Int) (sid : String) (ok : Bool)
    (hu : findUserByPhone db p = none)
    (ht : hasUsedFreeTrial db p = true) :
    (handleSms db p body now monthStart monthEnd sid ok).db = db ∧
    (handleSms db p body now monthStart monthEnd sid ok).userSms =
      [.trialUsedSignup] ∧
    (handleSms db p body now monthStart monthEnd sid ok).adminSms =
      [.smsTrialUsedDeny] ∧
    (handleSms db p body now monthStart monthEnd sid ok).response =
      some () ∧
    (handleVoiceDigit2 db p now monthStart monthEnd sid ok).db = db ∧
    (handleVoiceDigit2 db p now monthStart monthEnd sid ok).adminSms = [] ∧
    (handleVoiceDigit2 db p now monthStart monthEnd sid ok).response =
      some (.dialForward .returning false) := by
  simp [handleSms, handleVoiceDigit2, hu, ht]

/-- C4 witness: the amended behavior evaluated on `dbC4`; exactly one
FreeTrial row remains on both channels. -/
theorem c4_amended_trial_denial_witness :
    (handleSms dbC4 "+15551234567" "hi" 0 0 1000 "n1" true).db = dbC4 ∧
    (handleVoiceDigit2 dbC4 "+15551234567" 0 0 1000 "n1" true).db = dbC4 ∧
    dbC4.freeTrials = ["5551234567"] := by
  have h := c4_amended_trial_denial dbC4 "+15551234567" "hi" 0 0 1000 "n1"
    true (by decide) (by decide)
  exact ⟨h.1, h.2.2.2.2.1, by decide⟩

/-! Claim C5: single-thread session reuse and channel switching. -/

/-- The observable effect of the SMS channel switch plus message append on
one session row. -/
def updSms (sid : String) (now : Int) (body : String) (t : HelpSession) :
    HelpSession :=
  if t.id == sid then
    { t with type := "sms", updatedAt := now, lastMessage := some body }
  else t

/-- Free-plan user of the C5 stores. -/
def uC5 : UserRec := ⟨"u1", "A", "5551234567", none, none, none⟩

/-- Open sms-type session of the C5 counterexample store. -/
def sC5 : HelpSession :=
  ⟨"s1", "u1", "sms", "ongoing", "low", false, 100, 100, none⟩

/-- Store for the C5 counterexample: one entitled free-plan user with one
open sms-type session. -/
def dbC5 : Db := ⟨[uC5], [], [sC5], [], []⟩

/-- Store for the second C5 defect: the most recent incomplete session has
a status outside the active set, hiding an older open one. -/
def dbC5b : Db :=
  ⟨[uC5], [],
   [⟨"s2", "u1", "phone", "closed", "low", false, 200, 200, none⟩,
    ⟨"s3", "u1", "phone", "open", "low", false, 100, 100, none⟩],
   [], []⟩

/-- C5 counterexample: two defects against the claim.  First, on a voice
call the open sms-type session is reused (no new row, forwarded as a
continuation) but its channel type is left as sms instead of being
updated to phone.  Second, the lookup takes only the most recent
incomplete row before filtering statuses, so an older open session hidden
behind a newer non-active incomplete row is not found at all, and an
inbound SMS then creates a second session row instead of reusing the
open one. -/
theorem c5_counterexample :
    ((handleVoiceDigit2 dbC5 "5551234567" 200 0 1000 "n1" true).db =
      dbC5 ∧
     (handleVoiceDigit2 dbC5 "5551234567" 200 0 1000 "n1" true).response =
      some (.dialForward .customer true) ∧
     findActiveSession dbC5.sessions "u1" = some sC5 ∧
     sC5.type = "sms") ∧
    ((dbC5b.sessions.filter fun s => !s.completed && activeStatus s) ≠
      [] ∧
     findActiveSession dbC5b.sessions "u1" = none ∧
     (handleSms dbC5b "5551234567" "hi" 300 0 1000 "n1"
       true).db.sessions.length = 3) := by decide

/-- Composing the channel-type update with the lastMessage update gives
`updSms` pointwise. -/
theorem updSms_comp (sid : String) (now : Int) (body : String)
    (t : HelpSession) :
    (fun x : HelpSession =>
        if x.id == sid then
          { x with lastMessage := some body, updatedAt := now }
        else x)
      ((fun x : HelpSession =>
          if x.id == sid then { x with type := "sms", updatedAt := now }
          else x) t) = updSms sid now body t := by
  cases h : t.id == sid <;> simp [updSms, h]

/-- C5 amended: on an inbound SMS from a registered entitled user (any
plan that is not a quota-exhausted free plan: free with sessions left,
pay-as-you-go, or subscription — the reuse path is plan-independent and
an active session also short-circuits the pay-as-you-go throttle), the
tracker reuses the most recently created incomplete HelpSession provided
its status is in the active set {pending, active, ongoing, open}: the
channel type is updated to sms in place, the inbound message is appended,
and no new session row is created; a voice call reuses such a session
without changing its channel type and without touching the store.  (An
incomplete session with an active status that is not the most recent
incomplete row is not reused.) -/
theorem c5_amended_session_reuse (db : Db) (sender body : String)
    (u : UserRec) (s : HelpSession) (now monthStart monthEnd : Int)
    (sid : String) (ok : Bool)
    (h1 : findUserByPhone db sender = some u)
    (hent : (resolveInfo db u.id monthStart monthEnd).subscriptionType ≠
        .free ∨
      0 < (resolveInfo db u.id monthStart monthEnd).freeSessionsRemaining)
    (hact : findActiveSession db.sessions u.id = some s)
    (hty : s.type ≠ "sms") :
    (handleSms db sender body now monthStart monthEnd sid ok).db.sessions =
      db.sessions.map (updSms s.id now body) ∧
    (handleSms db sender body now monthStart monthEnd sid ok).db.messages =
      ⟨s.id, body, false, now, false⟩ :: db.messages ∧
    (handleSms db sender body now monthStart monthEnd sid ok).userSms =
      [] ∧
    (handleSms db sender body now monthStart monthEnd sid ok).adminSms =
      [.smsForward false] ∧
    (handleSms db sender body now monthStart monthEnd sid ok).response =
      some () ∧
    (handleVoiceDigit2 db sender now monthStart monthEnd sid ok).db = db ∧
    (handleVoiceDigit2 db sender now monthStart monthEnd sid ok).response =
      some (.dialForward .customer true) := by
  have hcond : ¬((resolveInfo db u.id monthStart
      monthEnd).subscriptionType = .free ∧
      (resolveInfo db u.id monthStart monthEnd).freeSessionsRemaining ≤
        0) := by
    rcases hent with h | h
    · exact fun hc => h hc.1
    · exact fun hc => absurd hc.2 (by omega)
  have key : handleSms db sender body now monthStart monthEnd sid ok =
      ⟨createMessage (setSessionTypeSms db s.id now) s.id body false now,
        [], [.smsForward false], some ()⟩ := by
    simp [handleSms, h1, hcond, hact, hty]
  have hsessions :
      (createMessage (setSessionTypeSms db s.id now) s.id body false
        now).sessions = db.sessions.map (updSms s.id now body) := by
    simp only [createMessage, setSessionTypeSms, List.map_map]
    exact List.map_congr_left fun t _ => updSms_comp s.id now body t
  refine ⟨?_, ?_, ?_, ?_, ?_, ?_, ?_⟩
  · rw [key]; exact hsessions
  · rw [key]; rfl
  · rw [key]
  · rw [key]
  · rw [key]
  · simp [handleVoiceDigit2, h1, hcond, hact]
  · simp [handleVoiceDigit2, h1, hcond, hact]

/-- Open phone-type session of the C5 witness store. -/
def sC5w : HelpSession :=
  ⟨"s1", "u1", "phone", "ongoing", "low", false, 100, 100, none⟩

/-- Store for the C5 witness: one entitled free-plan user with one open
phone-type session. -/
def dbC5w : Db := ⟨[uC5], [], [sC5w], [], []⟩

/-- Subscription-plan user of the C5 witness, with an open phone-type
session. -/
def uC5sub : UserRec :=
  ⟨"u3", "C", "3035558888", some "sub_1", none, some "cus_1"⟩

/-- Open phone-type session of the subscription user. -/
def sC5sub : HelpSession :=
  ⟨"s2", "u3", "phone", "open", "high", false, 100, 100, none⟩

/-- Store for the C5 witness, subscription instance. -/
def dbC5sub : Db := ⟨[uC5sub], [], [sC5sub], [], []⟩

/-- Pay-as-you-go user of the C5 witness, with an open phone-type session
created within the last 24 hours (the reuse path bypasses the
throttle). -/
def uC5pg : UserRec :=
  ⟨"u4", "D", "3035559999", none, some "usage_2", some "cus_2"⟩

/-- Open phone-type session of the pay-as-you-go user. -/
def sC5pg : HelpSession :=
  ⟨"s3", "u4", "phone", "pending", "medium", false, 100, 100, none⟩

/-- Store for the C5 witness, pay-as-you-go instance. -/
def dbC5pg : Db := ⟨[uC5pg], [], [sC5pg], [], []⟩

/-- C5 witness: a contact with one open phone session who texts in ends
with exactly one session row, with type sms — instantiated for a
free-plan, a subscription, and a pay-as-you-go user. -/
theorem c5_amended_session_reuse_witness :
    (handleSms dbC5w "5551234567" "hi" 200 0 1000 "n1" true).db.sessions =
      [⟨"s1", "u1", "sms", "ongoing", "low", false, 100, 200,
        some "hi"⟩] ∧
    (handleSms dbC5sub "3035558888" "hi" 200 0 1000 "n1"
      true).db.sessions =
      [⟨"s2", "u3", "sms", "open", "high", false, 100, 200, some "hi"⟩] ∧
    (handleSms dbC5pg "3035559999" "hi" 200 0 1000 "n1"
      true).db.sessions =
      [⟨"s3", "u4", "sms", "pending", "medium", false, 100, 200,
        some "hi"⟩] := by
  have hf := c5_amended_session_reuse dbC5w "5551234567" "hi" uC5 sC5w 200
    0 1000 "n1" true (by decide) (by decide) (by decide) (by decide)
  have hs := c5_amended_session_reuse dbC5sub "3035558888" "hi" uC5sub
    sC5sub 200 0 1000 "n1" true (by decide) (by decide) (by decide)
    (by decide)
  have hp := c5_amended_session_reuse dbC5pg "3035559999" "hi" uC5pg sC5pg
    200 0 1000 "n1" true (by decide) (by decide) (by decide) (by decide)
  exact ⟨hf.1.trans (by decide), hs.1.trans (by decide),
    hp.1.trans (by decide)⟩

/-! Claim C6: metered billing on session creation. -/

/-- `reportStripeUsage` is a no-op for a non-pay-as-you-go entitlement. -/
theorem report_nonpayg (db : Db) (uid sid : String)
    (monthStart monthEnd : Int) (ok : Bool)
    (h : (resolveInfo db uid monthStart monthEnd).subscriptionType ≠
      .payAsYouGo) :
    reportStripeUsage db uid sid monthStart monthEnd ok = ⟨db, true, 0⟩ := by
  simp [reportStripeUsage, h]

/-- `reportStripeUsage` is a no-op while free sessions remain. -/
theorem report_payg_free_left (db : Db) (uid sid : String)
    (monthStart monthEnd : Int) (ok : Bool)
    (hp : (resolveInfo db uid monthStart monthEnd).subscriptionType =
      .payAsYouGo)
    (hr : (resolveInfo db uid monthStart monthEnd).freeSessionsRemaining >
      0) :
    reportStripeUsage db uid sid monthStart monthEnd ok = ⟨db, true, 0⟩ := by
  simp [reportStripeUsage, hp, hr]

/-- The billable branch of `reportStripeUsage`: one meter event, and an
insert guarded by the conflict check on the user's stripeUsageId. -/
theorem report_payg_billable (db : Db) (uid sid : String)
    (monthStart monthEnd : Int) (u : UserRec) (usg cust : String)
    (h2 : findUserById db uid = some u)
    (hp : (resolveInfo db uid monthStart monthEnd).subscriptionType =
      .payAsYouGo)
    (hr : ¬(resolveInfo db uid monthStart monthEnd).freeSessionsRemaining >
      0)
    (husg : u.stripeUsageId = some usg)
    (hcust : u.stripeCustomerId = some cust) :
    reportStripeUsage db uid sid monthStart monthEnd true =
      ⟨if db.stripeUsages.any fun r => r.stripeUsageId == usg then db
        else { db with stripeUsages :=
          ⟨uid, usg, cust, sid, "help_session", "pending"⟩ ::
            db.stripeUsages },
       true, 1⟩ := by
  simp [reportStripeUsage, hp, hr, h2, husg, hcust]

/-- The abandoned branch of `reportStripeUsage`: a billable
pay-as-you-go user without a stripeCustomerId triggers no meter event
and no insert. -/
theorem report_payg_nocust (db : Db) (uid sid : String)
    (monthStart monthEnd : Int) (ok : Bool) (u : UserRec) (usg : String)
    (h2 : findUserById db uid = some u)
    (hp : (resolveInfo db uid monthStart monthEnd).subscriptionType =
      .payAsYouGo)
    (hr : ¬(resolveInfo db uid monthStart monthEnd).freeSessionsRemaining >
      0)
    (husg : u.stripeUsageId = some usg)
    (hcust : u.stripeCustomerId = none) :
    reportStripeUsage db uid sid monthStart monthEnd ok =
      ⟨db, false, 0⟩ := by
  simp [reportStripeUsage, hp, hr, h2, husg, hcust]

/-- Pay-as-you-go user of the C6 counterexample store. -/
def uC6 : UserRec := ⟨"u2", "B", "7201112222", none, some "usage_1", some "cus_9"⟩

/-- Store for C6: the pay-as-you-go user has exhausted the 3 free sessions
(3 completed sessions in the window [0, 1000)) and already has one
UsageRecord from an earlier billable session, carrying the user's fixed
stripeUsageId. -/
def dbC6 : Db :=
  ⟨[uC6], [],
   [⟨"a", "u2", "phone", "completed", "medium", true, 10, 10, none⟩,
    ⟨"b", "u2", "phone", "completed", "medium", true, 20, 20, none⟩,
    ⟨"c", "u2", "sms", "completed", "medium", true, 30, 30, none⟩],
   [],
   [⟨"u2", "usage_1", "cus_9", "old", "help_session", "pending"⟩]⟩

/-- C6 counterexample: a newly created session for a pay-as-you-go user
with exhausted free sessions reports one meter event, but the UsageRecord
insert conflicts on the user's fixed stripeUsageId (ON CONFLICT DO
NOTHING) and inserts nothing, refuting one-insertion-per-billable-session:
the StripeUsage table still holds exactly the old row. -/
theorem c6_counterexample :
    (createHelpSession dbC6 "u2" "sms" none 90000000000 "n1" 0 1000
      true).meterEvents = 1 ∧
    (createHelpSession dbC6 "u2" "sms" none 90000000000 "n1" 0 1000
      true).db.stripeUsages = dbC6.stripeUsages ∧
    dbC6.stripeUsages.length = 1 := by decide

/-- C6 amended: a newly created session triggers a usage report exactly
when the user is pay-as-you-go with no free sessions remaining and a
stripeCustomerId on record; in that case exactly one meter event is sent
and the UsageRecord insert is conflict-guarded on the user's fixed
stripeUsageId, inserting a row only when no UsageRecord with that
stripeUsageId exists yet (at most one per user, not one per billable
session); sessions of subscription or free-plan users, of pay-as-you-go
users with free sessions remaining, and of pay-as-you-go users without
a stripeCustomerId trigger no meter event and no insertion. -/
theorem c6_amended_billing (db : Db) (uid ct sid : String)
    (im : Option String) (now monthStart monthEnd : Int) (u : UserRec)
    (h2 : findUserById db uid = some u) :
    (u.stripeSubscriptionId.isSome → ∀ ok,
      (createHelpSession db uid ct im now sid monthStart monthEnd
        ok).meterEvents = 0 ∧
      (createHelpSession db uid ct im now sid monthStart monthEnd
        ok).db.stripeUsages = db.stripeUsages) ∧
    (u.stripeSubscriptionId = none → u.stripeUsageId = none → ∀ ok,
      (createHelpSession db uid ct im now sid monthStart monthEnd
        ok).meterEvents = 0 ∧
      (createHelpSession db uid ct im now sid monthStart monthEnd
        ok).db.stripeUsages = db.stripeUsages) ∧
    (u.stripeSubscriptionId = none → u.stripeUsageId.isSome →
      countUserSessions db.sessions uid monthStart monthEnd < 3 → ∀ ok,
      (createHelpSession db uid ct im now sid monthStart monthEnd
        ok).meterEvents = 0 ∧
      (createHelpSession db uid ct im now sid monthStart monthEnd
        ok).db.stripeUsages = db.stripeUsages) ∧
    (∀ usg cust, u.stripeSubscriptionId = none →
      u.stripeUsageId = some usg → u.stripeCustomerId = some cust →
      3 ≤ countUserSessions db.sessions uid monthStart monthEnd →
      (createHelpSession db uid ct im now sid monthStart monthEnd
        true).meterEvents = 1 ∧
      (createHelpSession db uid ct im now sid monthStart monthEnd
        true).db.stripeUsages =
        (if db.stripeUsages.any fun r => r.stripeUsageId == usg then
          db.stripeUsages
        else ⟨uid, usg, cust, sid, "help_session", "pending"⟩ ::
          db.stripeUsages)) ∧
    (∀ usg, u.stripeSubscriptionId = none → u.stripeUsageId = some usg →
      u.stripeCustomerId = none →
      3 ≤ countUserSessions db.sessions uid monthStart monthEnd → ∀ ok,
      (createHelpSession db uid ct im now sid monthStart monthEnd
        ok).meterEvents = 0 ∧
      (createHelpSession db uid ct im now sid monthStart monthEnd
        ok).db.stripeUsages = db.stripeUsages) := by
  have hcons : resolveInfo
      (withNewSession db uid ct im now sid monthStart monthEnd) uid
      monthStart monthEnd = resolveInfo db uid monthStart monthEnd :=
    resolveInfo_session_cons db uid monthStart monthEnd rfl
  refine ⟨fun hs ok => ?_, fun hsub hus ok => ?_, fun hsub hus hc ok => ?_,
    fun usg cust hsub hus hcust hc => ?_, fun usg hsub hus hcust hc ok => ?_⟩
  · have hi := resolveInfo_of_subscription monthStart monthEnd h2 hs
    have hne : (resolveInfo
        (withNewSession db uid ct im now sid monthStart monthEnd) uid
        monthStart monthEnd).subscriptionType ≠
        .payAsYouGo := by rw [hcons, hi]; simp
    have hrep := report_nonpayg _ uid sid monthStart monthEnd ok hne
    simp [createHelpSession, hrep, withNewSession_stripeUsages]
  · have hi := resolveInfo_of_free monthStart monthEnd h2 hsub hus
    have hne : (resolveInfo
        (withNewSession db uid ct im now sid monthStart monthEnd) uid
        monthStart monthEnd).subscriptionType ≠
        .payAsYouGo := by rw [hcons, hi]; simp
    have hrep := report_nonpayg _ uid sid monthStart monthEnd ok hne
    simp [createHelpSession, hrep, withNewSession_stripeUsages]
  · have hi := resolveInfo_of_payg monthStart monthEnd h2 hsub hus
    have hp : (resolveInfo
        (withNewSession db uid ct im now sid monthStart monthEnd) uid
        monthStart monthEnd).subscriptionType =
        .payAsYouGo := by rw [hcons, hi]
    have hr : (resolveInfo
        (withNewSession db uid ct im now sid monthStart monthEnd) uid
        monthStart monthEnd).freeSessionsRemaining >
        0 := by rw [hcons, hi]; dsimp only; omega
    have hrep := report_payg_free_left _ uid sid monthStart monthEnd ok hp hr
    simp [createHelpSession, hrep, withNewSession_stripeUsages]
  · have hi := resolveInfo_of_payg monthStart monthEnd h2 hsub
      (by simp [hus])
    have h2w : findUserById
        (withNewSession db uid ct im now sid monthStart monthEnd) uid =
        some u := h2
    have hp : (resolveInfo
        (withNewSession db uid ct im now sid monthStart monthEnd) uid
        monthStart monthEnd).subscriptionType =
        .payAsYouGo := by rw [hcons, hi]
    have hr : ¬(resolveInfo
        (withNewSession db uid ct im now sid monthStart monthEnd) uid
        monthStart monthEnd).freeSessionsRemaining >
        0 := by rw [hcons, hi]; dsimp only; omega
    have hrep := report_payg_billable
      (withNewSession db uid ct im now sid monthStart monthEnd) uid sid
      monthStart monthEnd u usg cust h2w hp hr hus hcust
    rw [withNewSession_stripeUsages] at hrep
    by_cases hb : (db.stripeUsages.any fun r => r.stripeUsageId == usg) =
      true
    · simp [createHelpSession, hrep, hb, withNewSession_stripeUsages]
    · simp [createHelpSession, hrep, hb, withNewSession_stripeUsages]
  · have hi := resolveInfo_of_payg monthStart monthEnd h2 hsub
      (by simp [hus])
    have h2w : findUserById
        (withNewSession db uid ct im now sid monthStart monthEnd) uid =
        some u := h2
    have hp : (resolveInfo
        (withNewSession db uid ct im now sid monthStart monthEnd) uid
        monthStart monthEnd).subscriptionType =
        .payAsYouGo := by rw [hcons, hi]
    have hr : ¬(resolveInfo
        (withNewSession db uid ct im now sid monthStart monthEnd) uid
        monthStart monthEnd).freeSessionsRemaining >
        0 := by rw [hcons, hi]; dsimp only; omega
    have hrep := report_payg_nocust
      (withNewSession db uid ct im now sid monthStart monthEnd) uid sid
      monthStart monthEnd ok u usg h2w hp hr hus hcust
    simp [createHelpSession, hrep, withNewSession_stripeUsages]

/-- Store for the C6 witness: same exhausted pay-as-you-go user with no
prior UsageRecord. -/
def dbC6w : Db := { dbC6 with stripeUsages := [] }

/-- C6 witness: the first billable session of the exhausted
pay-as-you-go user sends one meter event and inserts one UsageRecord. -/
theorem c6_amended_billing_witness :
    (createHelpSession dbC6w "u2" "sms" none 90000000000 "n1" 0 1000
      true).meterEvents = 1 ∧
    (createHelpSession dbC6w "u2" "sms" none 90000000000 "n1" 0 1000
      true).db.stripeUsages =
      [⟨"u2", "usage_1", "cus_9", "n1", "help_session", "pending"⟩] := by
  have h := (c6_amended_billing dbC6w "u2" "sms" "n1" none 90000000000 0
    1000 uC6 (by decide)).2.2.2.1 "usage_1" "cus_9" (by decide) (by decide)
    (by decide) (by decide)
  exact ⟨h.1, h.2.trans (by decide)⟩

/-! Claim C9: every webhook path answers the provider. -/

/-- Pay-as-you-go user of the C9 store. -/
def uC9 : UserRec := ⟨"u2", "B", "7201112222", none, some "usage_1", some "cus_9"⟩

/-- Store for C9: the pay-as-you-go user has no open active-status
session, but a completed session created one hour before the event time
90000000000. -/
def dbC9 : Db :=
  ⟨[uC9], [],
   [⟨"s9", "u2", "phone", "completed", "medium", true, 89996400000,
     89996400000, none⟩], [], []⟩

/-- C9: the pay-as-you-go throttle branch of the voice digit-2 handler
returns after the two SMS sends without ever sending TwiML back to the
provider (server.ts:1028-1049 has no res.send before the early return,
unlike the session-limit branch at server.ts:963-964), so this execution
path leaves the webhook request unanswered, contradicting the claim that
every path sends a well-formed response. -/
theorem c9_unanswered_webhook :
    (handleVoiceDigit2 dbC9 "7201112222" 90000000000 0 1000 "n1"
      true).response = none ∧
    (handleVoiceDigit2 dbC9 "7201112222" 90000000000 0 1000 "n1"
      true).userSms = [.paygWait] ∧
    (handleVoiceDigit2 dbC9 "7201112222" 90000000000 0 1000 "n1"
      true).adminSms = [.voicePaygRecentDeny] ∧
    (handleVoice dbC9 (some "2") "7201112222" 90000000000 0 1000 "n1"
      true).response = none := by decide

end Eldrix
